import Mathlib

/-!
Shallow embedding of the DAT-vs-market-rate freight handler (src/handler.py).

Python floats are modelled as exact rationals; Python `Optional` values and
tolerant `.get(key, default)` chains are modelled with `Option` fields and
`Option.getD`.  Output dictionaries mixing numbers and sentinel strings are
modelled with a tagged union `RVal`.  The outbound HTTP call is modelled by an
explicit transport function passed as a parameter.
-/

namespace DatMarket

/-- Nearest integer to a rational, ties to even: the rounding convention of
Python `round` (applied here to exact rationals rather than binary floats). -/
def roundHalfEven (q : ℚ) : ℤ :=
  let f : ℤ := q.floor
  let r : ℚ := q - (f : ℚ)
  if r < 1/2 then f
  else if 1/2 < r then f + 1
  else if f % 2 = 0 then f else f + 1

/-- Python `round(x, 2)`: round to 2 decimal places. -/
def round2 (q : ℚ) : ℚ := ((roundHalfEven (q * 100) : ℤ) : ℚ) / 100

/-- `van_codes` from `map_equipment_code_to_rateview`. -/
def van_codes : List String :=
  ["V", "VA", "VB", "VC", "V2", "VZ", "VH", "VI", "VN", "VG", "VL", "VV", "VM", "VT", "VF", "VR", "VP", "VW"]

/-- `reefer_codes` from `map_equipment_code_to_rateview`. -/
def reefer_codes : List String :=
  ["R", "RA", "R2", "RZ", "RN", "RL", "RM", "RG", "RV", "RP"]

/-- `flatbed_codes` from `map_equipment_code_to_rateview`. -/
def flatbed_codes : List String :=
  ["F", "FA", "FT", "FM", "FD", "FR", "FO", "FN", "FS"]

/-- `map_equipment_code_to_rateview` (handler.py lines 6-20). -/
def map_equipment_code_to_rateview (equipment_code : String) : String :=
  if equipment_code ∈ van_codes then "VAN"
  else if equipment_code ∈ reefer_codes then "REEFER"
  else if equipment_code ∈ flatbed_codes then "FLATBED"
  else "FLATBED"

/-- Modelled from the spec (section 4.1): the two-set lookup with `FLATBED`
as the default case, used to compare against the source function. -/
def specMapEquipment (code : String) : String :=
  if code ∈ van_codes then "VAN"
  else if code ∈ reefer_codes then "REEFER"
  else "FLATBED"

/-- A dict holding an optional `rateUsd` key, e.g. `bookable.rate` or
`nonBookable` in the load record. -/
structure RateUsdBox where
  rateUsd : Option ℚ := Option.none
deriving DecidableEq, Repr

/-- The `bookable` dict inside `privateNetworkRateInfo`. -/
structure BookableRate where
  rate : Option RateUsdBox := Option.none
deriving DecidableEq, Repr

/-- The `privateNetworkRateInfo` dict of a load record. -/
structure PrivateNetworkRateInfo where
  bookable : Option BookableRate := Option.none
deriving DecidableEq, Repr

/-- The `loadBoardRateInfo` dict of a load record. -/
structure LoadBoardRateInfo where
  nonBookable : Option RateUsdBox := Option.none
deriving DecidableEq, Repr

/-- The `tripLength` dict of a load record. -/
structure TripLength where
  miles : Option ℚ := Option.none
deriving DecidableEq, Repr

/-- The rate-bearing fields of a load record, each optional (absent key =
`Option.none`), mirroring the tolerant `.get` access in handler.py. -/
structure Load where
  estimatedRatePerMile : Option ℚ := Option.none
  tripLength : Option TripLength := Option.none
  privateNetworkRateInfo : Option PrivateNetworkRateInfo := Option.none
  loadBoardRateInfo : Option LoadBoardRateInfo := Option.none
deriving DecidableEq, Repr

/-- `load.get("estimatedRatePerMile", 0)`. -/
def Load.estD (l : Load) : ℚ := l.estimatedRatePerMile.getD 0

/-- `load.get("tripLength", {}).get("miles", 0)`. -/
def Load.tripMiles (l : Load) : ℚ := ((l.tripLength.getD {}).miles).getD 0

/-- `load.get("privateNetworkRateInfo", {}).get("bookable", {}).get("rate", {}).get("rateUsd", 0)`. -/
def Load.privRateUsd (l : Load) : ℚ :=
  ((((l.privateNetworkRateInfo.getD {}).bookable.getD {}).rate.getD {}).rateUsd).getD 0

/-- `load.get("loadBoardRateInfo", {}).get("nonBookable", {}).get("rateUsd", 0)`. -/
def Load.lbRateUsd (l : Load) : ℚ :=
  (((l.loadBoardRateInfo.getD {}).nonBookable.getD {}).rateUsd).getD 0

/-- `get_broker_rate_per_mile` (handler.py lines 22-43). -/
def get_broker_rate_per_mile (load : Load) : Option ℚ :=
  if 0 < load.estD then load.estimatedRatePerMile
  else
    let trip_length_miles := load.tripMiles
    if trip_length_miles ≤ 0 then Option.none
    else
      let private_rate := load.privRateUsd
      if 0 < private_rate then Option.some (private_rate / trip_length_miles)
      else
        let load_board_rate := load.lbRateUsd
        if 0 < load_board_rate then Option.some (load_board_rate / trip_length_miles)
        else Option.none

/-- `get_total_load_amount` (handler.py lines 45-57). -/
def get_total_load_amount (load : Load) : Option ℚ :=
  let private_rate := load.privRateUsd
  if 0 < private_rate then Option.some private_rate
  else
    let load_board_rate := load.lbRateUsd
    if 0 < load_board_rate then Option.some load_board_rate
    else Option.none

/-- A Python value that is either a float or a sentinel string (the output
dicts of handler.py mix the two in one field). -/
inductive RVal where
  | num (q : ℚ)
  | str (s : String)
deriving DecidableEq, Repr

/-- The result dict of `calculate_driver_pay`. -/
structure DriverPay where
  amount : RVal
  calculation_method : String
deriving DecidableEq, Repr

/-- Python truthiness-and-positivity test `x and x > 0` on an optional float:
`None` is falsy, `0.0` is falsy, and otherwise the comparison decides. -/
def truthyPos : Option ℚ → Bool
  | Option.none => false
  | Option.some q => decide (0 < q)

/-- `calculate_driver_pay` (handler.py lines 59-92). -/
def calculate_driver_pay (load : Load) : DriverPay :=
  let trip_length_miles := load.tripMiles
  let total_load_amount := get_total_load_amount load
  if truthyPos total_load_amount then
    { amount := RVal.num (round2 (total_load_amount.getD 0 * 0.25)),
      calculation_method := "percentage_of_total" }
  else
    let rate_per_mile := get_broker_rate_per_mile load
    if truthyPos rate_per_mile ∧ 0 < trip_length_miles then
      { amount := RVal.num (round2 (rate_per_mile.getD 0 * trip_length_miles * 0.25)),
        calculation_method := "calculated_from_rate_per_mile" }
    else
      { amount := RVal.str "Not Available",
        calculation_method := "insufficient_data" }

/-- The human-readable comparison string of `get_rate_comparison`, modelled as
a tagged value: `aboveMarket p` renders as "p% above market rate",
`belowMarket p` as "p% below market rate", `atMarket` as "At market rate" and
`notPossible` as "Rate comparison not possible". -/
inductive Comparison where
  | aboveMarket (pct : ℚ)
  | belowMarket (pct : ℚ)
  | atMarket
  | notPossible
deriving DecidableEq, Repr

/-- The result dict of `get_rate_comparison`. -/
structure RateComparison where
  broker_rate_per_mile : RVal
  market_rate_per_mile : RVal
  difference_percentage : RVal
  comparison : Comparison
deriving DecidableEq, Repr

/-- Python `x is None or x <= 0` on an optional float. -/
def absentOrNonpos : Option ℚ → Bool
  | Option.none => true
  | Option.some q => decide (q ≤ 0)

/-- `get_rate_comparison` (handler.py lines 94-119). -/
def get_rate_comparison (load_rate market_rate : Option ℚ) : RateComparison :=
  if absentOrNonpos load_rate ∨ absentOrNonpos market_rate then
    { broker_rate_per_mile :=
        if absentOrNonpos load_rate then RVal.str "Not Available" else RVal.num (load_rate.getD 0),
      market_rate_per_mile :=
        if absentOrNonpos market_rate then RVal.str "Not Available" else RVal.num (market_rate.getD 0),
      difference_percentage := RVal.str "N/A",
      comparison := Comparison.notPossible }
  else
    let lr := load_rate.getD 0
    let mr := market_rate.getD 0
    let difference_percentage := ((lr - mr) / mr) * 100
    { broker_rate_per_mile := RVal.num lr,
      market_rate_per_mile := RVal.num mr,
      difference_percentage := RVal.num (round2 difference_percentage),
      comparison :=
        if 0 < difference_percentage then Comparison.aboveMarket |round2 difference_percentage|
        else if difference_percentage < 0 then Comparison.belowMarket |round2 difference_percentage|
        else Comparison.atMarket }

/-- A loosely-typed string-valued Python dict (e.g. an origin or destination
place), modelled as an association list; Python dict truthiness is emptiness
of the list. -/
abbrev PDict := List (String × String)

/-- `d.get(k, dflt)` on a string-valued dict. -/
def dictGetD (d : PDict) (k dflt : String) : String :=
  ((d.find? (fun kv => kv.1 = k)).map (fun kv => kv.2)).getD dflt

/-- The single lookup-request object built by `call_rateview_api`
(handler.py lines 129-144). -/
structure LookupRequest where
  originCity : String
  originStateOrProvince : String
  destCity : String
  destStateOrProvince : String
  rateType : String
  equipment : String
  includeMyRate : Bool
  escalationType : String
deriving DecidableEq, Repr

/-- The `perMile` / `perTrip` dicts of a Rateview rate payload. -/
structure PerMileD where
  rateUsd : Option ℚ := Option.none
deriving DecidableEq, Repr

/-- Escalation payload passed through opaquely, modelled as a string dict. -/
abbrev EscalationData := List (String × String)

/-- The `rate` object of a Rateview response. -/
structure RateData where
  mileage : Option ℚ := Option.none
  reports : Option ℚ := Option.none
  companies : Option ℚ := Option.none
  standardDeviation : Option ℚ := Option.none
  perMile : Option PerMileD := Option.none
  perTrip : Option PerMileD := Option.none
  averageFuelSurchargePerMileUsd : Option ℚ := Option.none
  averageFuelSurchargePerTripUsd : Option ℚ := Option.none
deriving DecidableEq, Repr

/-- Python dict truthiness of a `rate` object: true when any modelled key is
present. -/
def RateData.truthy (r : RateData) : Bool :=
  r.mileage.isSome || r.reports.isSome || r.companies.isSome ||
  r.standardDeviation.isSome || r.perMile.isSome || r.perTrip.isSome ||
  r.averageFuelSurchargePerMileUsd.isSome || r.averageFuelSurchargePerTripUsd.isSome

/-- The `response` object of one element of `rateResponses`; it may itself
carry an `error` key, which downstream code probes with `"error" in ...`. -/
structure ResponseObj where
  rate : Option RateData := Option.none
  escalation : Option EscalationData := Option.none
  errorKey : Option String := Option.none
deriving DecidableEq, Repr

/-- Python dict truthiness of a `response` object. -/
def ResponseObj.truthy (r : ResponseObj) : Bool :=
  r.rate.isSome || r.escalation.isSome || r.errorKey.isSome

/-- One element of `rateResponses`. -/
structure RRItem where
  response : Option ResponseObj := Option.none
deriving DecidableEq, Repr

/-- The dict returned by `call_rateview_api`: either a parsed success body
(`error` absent, `rateResponses` possibly present) or an error dict. -/
structure RVDict where
  error : Option String := Option.none
  detail : Option String := Option.none
  rateResponses : Option (List RRItem) := Option.none
deriving DecidableEq, Repr

/-- An HTTP response as seen by `call_rateview_api`: status code, raw text,
and the outcome of `response.json()` (which may itself raise). -/
structure HttpResponse where
  status_code : Nat
  text : String
  jsonBody : Except String RVDict
deriving Repr

/-- Outcome of `requests.post`: a response, or a raised exception. -/
inductive TransportOutcome where
  | resp (r : HttpResponse)
  | exn (msg : String)
deriving Repr

/-- The HTTP transport, modelled as a function from the request payload and
bearer token to an outcome. -/
abbrev Transport := LookupRequest → String → TransportOutcome

/-- The payload construction of `call_rateview_api` (handler.py lines 129-144). -/
def mkPayload (origin destination : PDict) (equipment : String) : LookupRequest :=
  { originCity := dictGetD origin "city" "",
    originStateOrProvince := dictGetD origin "stateProv" "",
    destCity := dictGetD destination "city" "",
    destStateOrProvince := dictGetD destination "stateProv" "",
    rateType := "SPOT",
    equipment := equipment,
    includeMyRate := true,
    escalationType := "BEST_FIT" }

/-- `call_rateview_api` (handler.py lines 121-158).  A transport exception, or
a `response.json()` failure inside the `try`, is caught and converted to an
`Exception:` error dict; a non-200/201 status yields an `API Error:` dict. -/
def call_rateview_api (tr : Transport) (origin destination : PDict)
    (equipment access_token : String) : RVDict :=
  match tr (mkPayload origin destination equipment) access_token with
  | TransportOutcome.exn msg =>
      { error := Option.some ("Exception: " ++ msg) }
  | TransportOutcome.resp r =>
      if r.status_code = 200 ∨ r.status_code = 201 then
        match r.jsonBody with
        | Except.ok body => body
        | Except.error msg => { error := Option.some ("Exception: " ++ msg) }
      else
        { error := Option.some ("API Error: " ++ toString r.status_code),
          detail := Option.some r.text }

/-- The `destination` dict inside `matchingAssetInfo`. -/
structure Destination where
  place : Option PDict := Option.none
deriving DecidableEq, Repr

/-- The `matchingAssetInfo` dict of a match. -/
structure AssetInfo where
  origin : Option PDict := Option.none
  destination : Option Destination := Option.none
  equipmentType : Option String := Option.none
deriving DecidableEq, Repr

/-- One element of the `matches` list: the rate-bearing `Load` fields plus
identification and routing data. -/
structure MatchRec extends Load where
  matchId : Option String := Option.none
  matchingAssetInfo : Option AssetInfo := Option.none
deriving DecidableEq, Repr

/-- The `matchCounts` pass-through payload, modelled as a numeric dict. -/
abbrev MatchCounts := List (String × ℚ)

/-- The input batch (`loads_data`); `matchesList` models the `matches` key
(`matches` is a reserved word in Lean). -/
structure LoadsData where
  matchCounts : Option MatchCounts := Option.none
  matchesList : Option (List MatchRec) := Option.none
deriving DecidableEq, Repr

/-- `match.get("matchingAssetInfo", {}).get("origin", {})`. -/
def MatchRec.originDict (m : MatchRec) : PDict :=
  ((m.matchingAssetInfo.getD {}).origin).getD []

/-- `match.get("matchingAssetInfo", {}).get("destination", {}).get("place", {})`. -/
def MatchRec.destPlaceDict (m : MatchRec) : PDict :=
  (((m.matchingAssetInfo.getD {}).destination.getD {}).place).getD []

/-- The skip test of the loop (handler.py line 187): `not origin or not
destination_place`, i.e. either place dict is empty. -/
def skipMatch (m : MatchRec) : Bool :=
  m.originDict.isEmpty || m.destPlaceDict.isEmpty

/-- The `market_data` local of the loop: either the error dict built from an
API error, or the response object of the first rate response. -/
inductive MData where
  | merr (msg : String)
  | mresp (r : ResponseObj)
deriving DecidableEq, Repr

/-- Python truthiness of the `market_data` dict. -/
def MData.truthy : MData → Bool
  | MData.merr _ => true
  | MData.mresp r => r.truthy

/-- `"error" in market_data`. -/
def MData.hasError : MData → Bool
  | MData.merr _ => true
  | MData.mresp r => r.errorKey.isSome

/-- `market_data["error"]` (only probed when `hasError`). -/
def MData.errorVal : MData → String
  | MData.merr msg => msg
  | MData.mresp r => r.errorKey.getD ""

/-- `"escalation" in market_data`. -/
def MData.hasEscalation : MData → Bool
  | MData.merr _ => false
  | MData.mresp r => r.escalation.isSome

/-- The `escalation` value of `market_data`. -/
def MData.escalationVal : MData → Option EscalationData
  | MData.merr _ => Option.none
  | MData.mresp r => r.escalation

/-- The `origin` / `destination` sub-dicts of a processed match. -/
structure PlaceOut where
  city : String
  state : String
deriving DecidableEq, Repr

/-- The `equipmentType` sub-dict of a processed match. -/
structure EquipOut where
  code : String
  rateviewType : String
deriving DecidableEq, Repr

/-- The `marketData` entry of a processed match: either the named snapshot of
rate fields (with optional escalation) or an error marker. -/
inductive MarketDataOut where
  | snapshot (mileage reports companies standardDeviation : Option ℚ)
      (perMile perTrip : PerMileD)
      (averageFuelSurchargePerMileUsd averageFuelSurchargePerTripUsd : Option ℚ)
      (escalation : Option EscalationData)
  | errOut (msg : String)
deriving DecidableEq, Repr

/-- One element of `processedMatches` (handler.py lines 236-272). -/
structure ProcessedMatch where
  matchId : String
  origin : PlaceOut
  destination : PlaceOut
  equipmentType : EquipOut
  tripMiles : ℚ
  rateComparison : RateComparison
  driver_pay : DriverPay
  marketData : Option MarketDataOut
deriving DecidableEq, Repr

/-- The result dict of `process_loads_and_compare_rates`. -/
structure BatchResult where
  matchCounts : MatchCounts
  processedMatches : List ProcessedMatch
deriving DecidableEq, Repr

/-- The loop body of `process_loads_and_compare_rates` for one non-skipped
match (handler.py lines 179-272). -/
def processOne (tr : Transport) (access_token : String) (m : MatchRec) : ProcessedMatch :=
  let match_id := m.matchId.getD ""
  let matching_asset_info := m.matchingAssetInfo.getD {}
  let origin := m.originDict
  let destination_place := m.destPlaceDict
  let equipment_code := matching_asset_info.equipmentType.getD ""
  let rateview_equipment := map_equipment_code_to_rateview equipment_code
  let broker_rate_per_mile := get_broker_rate_per_mile m.toLoad
  let driver_pay := calculate_driver_pay m.toLoad
  let rateview_response := call_rateview_api tr origin destination_place rateview_equipment access_token
  let state :=
    match rateview_response.error with
    | Option.some e => (Option.some (MData.merr e), (Option.none : Option RateData), (Option.none : Option ℚ))
    | Option.none =>
        match rateview_response.rateResponses.getD [] with
        | [] => (Option.none, Option.none, Option.none)
        | first :: _ =>
            let response_obj := first.response.getD {}
            (Option.some (MData.mresp response_obj), response_obj.rate,
             response_obj.rate.bind (fun rd => rd.perMile.bind (fun pm => pm.rateUsd)))
  let market_data := state.1
  let rate_data := state.2.1
  let market_rate_per_mile := state.2.2
  let comparison := get_rate_comparison broker_rate_per_mile market_rate_per_mile
  let marketData : Option MarketDataOut :=
    match rate_data with
    | Option.some rd =>
        if rd.truthy then
          Option.some (MarketDataOut.snapshot rd.mileage rd.reports rd.companies
            rd.standardDeviation (rd.perMile.getD {}) (rd.perTrip.getD {})
            rd.averageFuelSurchargePerMileUsd rd.averageFuelSurchargePerTripUsd
            (match market_data with
             | Option.some md => if md.truthy && md.hasEscalation then md.escalationVal else Option.none
             | Option.none => Option.none))
        else
          match market_data with
          | Option.some md =>
              if md.truthy && md.hasError then Option.some (MarketDataOut.errOut md.errorVal)
              else Option.none
          | Option.none => Option.none
    | Option.none =>
        match market_data with
        | Option.some md =>
            if md.truthy && md.hasError then Option.some (MarketDataOut.errOut md.errorVal)
            else Option.none
        | Option.none => Option.none
  { matchId := match_id,
    origin := { city := dictGetD origin "city" "", state := dictGetD origin "stateProv" "" },
    destination := { city := dictGetD destination_place "city" "",
                     state := dictGetD destination_place "stateProv" "" },
    equipmentType := { code := equipment_code, rateviewType := rateview_equipment },
    tripMiles := m.toLoad.tripMiles,
    rateComparison := comparison,
    driver_pay := driver_pay,
    marketData := marketData }

/-- The match loop (handler.py lines 178-274): skipped matches contribute
nothing; surviving matches are processed in order. -/
def process_matches (tr : Transport) (access_token : String) : List MatchRec → List ProcessedMatch
  | [] => []
  | m :: rest =>
      if skipMatch m then process_matches tr access_token rest
      else processOne tr access_token m :: process_matches tr access_token rest

/-- `process_loads_and_compare_rates` (handler.py lines 160-276). -/
def process_loads_and_compare_rates (tr : Transport) (loads_data : LoadsData)
    (access_token : String) : BatchResult :=
  { matchCounts := loads_data.matchCounts.getD [],
    processedMatches := process_matches tr access_token (loads_data.matchesList.getD []) }

/-- `process_freight_data` (handler.py lines 278-289). -/
def process_freight_data (tr : Transport) (loads_data : LoadsData)
    (access_token : String) : BatchResult :=
  process_loads_and_compare_rates tr loads_data access_token

/-- The value under the `freight_data` key of the job input.  A Python value
is either a dict whose tolerant `.get` traversal yields a `LoadsData` (with
its dict truthiness recorded explicitly, since the typed projection loses
unmodelled keys), or any other value, recorded by its truthiness and by the
message of the exception its processing would raise (`.get` on a non-dict). -/
inductive FreightVal where
  | fdict (truthy : Bool) (d : LoadsData)
  | fother (truthy : Bool) (exnMsg : String)
deriving Repr

/-- Python truthiness of an optional freight value (`None` when the key is
absent, which is falsy). -/
def fvTruthy : Option FreightVal → Bool
  | Option.none => false
  | Option.some (FreightVal.fdict t _) => t
  | Option.some (FreightVal.fother t _) => t

/-- The job input when it is a dict: the values under `freight_data` and
`access_token` (`Option.none` = key absent, i.e. `.get` yields `None`). -/
structure JobInputDict where
  freight_data : Option FreightVal := Option.none
  access_token : Option String := Option.none
deriving Repr

/-- The value under the `input` key of a job: a dict, or any non-dict value
(which fails the `isinstance(job_input, dict)` check). -/
inductive JobInput where
  | jdict (d : JobInputDict)
  | jnondict
deriving Repr

/-- A job as received by `handler`: `inputVal` is the value under the
`input` key when present. -/
structure Job where
  inputVal : Option JobInput
deriving Repr

/-- The mapping returned by `handler`: an error dict or a batch result. -/
inductive HandlerResult where
  | errResult (msg : String)
  | okResult (r : BatchResult)
deriving Repr

/-- Message of the `KeyError` raised by `job["input"]` when the key is
absent. -/
def keyErrorInput : String := "KeyError: input"

/-- Message of the `AttributeError` raised when processing is applied to
`None` (unreachable behind the truthiness check, kept for faithfulness). -/
def noneGetMsg : String := "NoneType object has no attribute get"

/-- `process_freight_data(freight_data, access_token)` seen from the
`try` in `handler`: a well-typed dict processes to a batch result; any
other value raises, with the exception message recorded in the value. -/
def process_freight_or_raise (tr : Transport) (fv : Option FreightVal)
    (access_token : String) : Except String BatchResult :=
  match fv with
  | Option.some (FreightVal.fdict _ d) => Except.ok (process_freight_data tr d access_token)
  | Option.some (FreightVal.fother _ msg) => Except.error msg
  | Option.none => Except.error noneGetMsg

/-- `handler` (handler.py lines 291-323).  `Except.error` models an uncaught
exception propagating out of the function: `job["input"]` is evaluated
outside the `try` block, so a missing `input` key raises past the handler. -/
def handler (tr : Transport) (job : Job) : Except String HandlerResult :=
  match job.inputVal with
  | Option.none => Except.error keyErrorInput
  | Option.some job_input =>
      match job_input with
      | JobInput.jnondict => Except.ok (HandlerResult.errResult "Input must be a dictionary")
      | JobInput.jdict d =>
          if fvTruthy d.freight_data = false then
            Except.ok (HandlerResult.errResult "Missing required parameter: freight_data")
          else if (d.access_token.getD "").isEmpty then
            Except.ok (HandlerResult.errResult "Missing required parameter: access_token")
          else
            match process_freight_or_raise tr d.freight_data (d.access_token.getD "") with
            | Except.ok r => Except.ok (HandlerResult.okResult r)
            | Except.error e => Except.ok (HandlerResult.errResult ("Processing error: " ++ e))

/-- A transport whose call raises (e.g. a connectivity failure). -/
def trRaises : Transport := fun _ _ => TransportOutcome.exn "connection timeout"

/-- A transport answering HTTP 500 with an unparseable body. -/
def trStatus500 : Transport := fun _ _ =>
  TransportOutcome.resp { status_code := 500, text := "server error", jsonBody := Except.error "invalid json" }

/-- A transport answering HTTP 200 with an empty parsed body. -/
def trOk200 : Transport := fun _ _ =>
  TransportOutcome.resp { status_code := 200, text := "ok", jsonBody := Except.ok {} }

/-! ## Helper lemmas -/

theorem reefer_not_van : ∀ s ∈ reefer_codes, s ∉ van_codes := by decide

theorem get_total_load_amount_pos (l : Load) (t : ℚ)
    (h : get_total_load_amount l = Option.some t) : 0 < t := by
  simp only [get_total_load_amount] at h
  split_ifs at h with h1 h2
  · exact Option.some_injective _ h ▸ h1
  · exact Option.some_injective _ h ▸ h2

theorem get_broker_rate_per_mile_pos (l : Load) (r : ℚ)
    (h : get_broker_rate_per_mile l = Option.some r) : 0 < r := by
  simp only [get_broker_rate_per_mile] at h
  split_ifs at h with h1 h2 h3 h4
  · have he : l.estD = r := by simp [Load.estD, h]
    exact he ▸ h1
  · have : l.privRateUsd / l.tripMiles = r := Option.some_injective _ h
    exact this ▸ div_pos h3 (lt_of_not_ge h2)
  · have : l.lbRateUsd / l.tripMiles = r := Option.some_injective _ h
    exact this ▸ div_pos h4 (lt_of_not_ge h2)

/-! ## Claims -/

/-- C6: `map_equipment_code_to_rateview` is total on strings: every code in
the van set yields `VAN`, every code in the reefer set yields `REEFER`, and
every other string (empty, unknown, or genuinely flatbed alike) yields
`FLATBED`; equivalently, the function coincides with the two-set lookup with
`FLATBED` as the default case. -/
theorem C6_mapEquipment (s : String) :
    (s ∈ van_codes → map_equipment_code_to_rateview s = "VAN") ∧
    (s ∈ reefer_codes → map_equipment_code_to_rateview s = "REEFER") ∧
    (s ∉ van_codes → s ∉ reefer_codes → map_equipment_code_to_rateview s = "FLATBED") ∧
    map_equipment_code_to_rateview s = specMapEquipment s := by
  refine ⟨fun h => ?_, fun h => ?_, fun h1 h2 => ?_, ?_⟩
  · simp [map_equipment_code_to_rateview, h]
  · simp [map_equipment_code_to_rateview, h, reefer_not_van s h]
  · simp only [map_equipment_code_to_rateview, if_neg h1, if_neg h2]
    split_ifs <;> rfl
  · unfold map_equipment_code_to_rateview specMapEquipment
    split_ifs <;> rfl

/-- C6 witness: evaluating the theorem on concrete codes. -/
theorem C6_mapEquipment_witness :
    map_equipment_code_to_rateview "VB" = "VAN" :=
  (C6_mapEquipment "VB").1 (by decide)

/-- C4: `get_broker_rate_per_mile` returns `estimatedRatePerMile` when it is
positive; otherwise it returns absent immediately whenever
`tripLength.miles <= 0`, regardless of the other rate fields; otherwise it
falls back to the private-network bookable `rateUsd` over miles when that
numerator is positive, else the load-board non-bookable `rateUsd` over miles
when positive, else absent. -/
theorem C4_brokerRatePerMile (l : Load) :
    (0 < l.estD → get_broker_rate_per_mile l = l.estimatedRatePerMile) ∧
    (l.estD ≤ 0 → l.tripMiles ≤ 0 → get_broker_rate_per_mile l = Option.none) ∧
    (l.estD ≤ 0 → 0 < l.tripMiles →
      get_broker_rate_per_mile l =
        if 0 < l.privRateUsd then Option.some (l.privRateUsd / l.tripMiles)
        else if 0 < l.lbRateUsd then Option.some (l.lbRateUsd / l.tripMiles)
        else Option.none) := by
  unfold get_broker_rate_per_mile
  refine ⟨fun h => by simp [h], fun h1 h2 => ?_, fun h1 h2 => ?_⟩
  · rw [if_neg (not_lt.2 h1), if_pos h2]
  · rw [if_neg (not_lt.2 h1), if_neg (not_le.2 h2)]

/-- C4 witness: a load with positive private-network rate but zero trip miles
and no estimated rate yields absent. -/
theorem C4_brokerRatePerMile_witness :
    get_broker_rate_per_mile
      { privateNetworkRateInfo := Option.some
          { bookable := Option.some { rate := Option.some { rateUsd := Option.some 500 } } } }
      = Option.none :=
  (C4_brokerRatePerMile _).2.1 (by decide) (by decide)

/-- C3: `calculate_driver_pay` follows the strictly ordered policy: a total
load amount yields 25% of it with method `percentage_of_total`; else a broker
rate together with positive trip miles yields 25% of rate times miles with
method `calculated_from_rate_per_mile`; else the `Not Available` sentinel with
method `insufficient_data`; numeric amounts are rounded to 2 decimals. -/
theorem C3_estimatePay (l : Load) :
    (∀ t, get_total_load_amount l = Option.some t →
       calculate_driver_pay l =
         { amount := RVal.num (round2 (t * 0.25)),
           calculation_method := "percentage_of_total" }) ∧
    (get_total_load_amount l = Option.none →
       (∀ r, get_broker_rate_per_mile l = Option.some r → 0 < l.tripMiles →
          calculate_driver_pay l =
            { amount := RVal.num (round2 (r * l.tripMiles * 0.25)),
              calculation_method := "calculated_from_rate_per_mile" }) ∧
       ((get_broker_rate_per_mile l = Option.none ∨ l.tripMiles ≤ 0) →
          calculate_driver_pay l =
            { amount := RVal.str "Not Available",
              calculation_method := "insufficient_data" })) := by
  constructor
  · intro t ht
    have hpos := get_total_load_amount_pos l t ht
    unfold calculate_driver_pay
    rw [ht]
    simp [truthyPos, hpos]
  · intro hnone
    constructor
    · intro r hr hm
      have hpos := get_broker_rate_per_mile_pos l r hr
      unfold calculate_driver_pay
      rw [hnone, hr]
      simp [truthyPos, hpos, hm]
    · intro hcase
      unfold calculate_driver_pay
      rw [hnone]
      rcases hcase with hr | hm
      · rw [hr]
        simp [truthyPos]
      · simp [truthyPos, not_lt.2 hm]

/-- C3 witness: a load with only a private-network total of 400 pays 100 by
`percentage_of_total`. -/
theorem C3_estimatePay_witness :
    calculate_driver_pay
      { privateNetworkRateInfo := Option.some
          { bookable := Option.some { rate := Option.some { rateUsd := Option.some 400 } } } }
      = { amount := RVal.num (round2 (400 * 0.25)),
          calculation_method := "percentage_of_total" } :=
  (C3_estimatePay _).1 400 (by decide)

/-- C2: for positive broker and market rates, the reported difference is
((broker - market) / market) * 100 rounded to 2 decimals, while the
above/below/at-market classification is decided by the sign of the unrounded
difference, so an exactly-zero difference is `atMarket` while a nonzero
difference that rounds to 0.00 is still labeled above or below market. -/
theorem C2_comparisonSign (b m d : ℚ) (hb : 0 < b) (hm : 0 < m)
    (hd : d = ((b - m) / m) * 100) :
    (get_rate_comparison (Option.some b) (Option.some m)).difference_percentage
        = RVal.num (round2 d) ∧
    (0 < d → (get_rate_comparison (Option.some b) (Option.some m)).comparison
        = Comparison.aboveMarket |round2 d|) ∧
    (d < 0 → (get_rate_comparison (Option.some b) (Option.some m)).comparison
        = Comparison.belowMarket |round2 d|) ∧
    (d = 0 → (get_rate_comparison (Option.some b) (Option.some m)).comparison
        = Comparison.atMarket) ∧
    (d ≠ 0 → round2 d = 0 →
       (get_rate_comparison (Option.some b) (Option.some m)).comparison
           = Comparison.aboveMarket 0 ∨
       (get_rate_comparison (Option.some b) (Option.some m)).comparison
           = Comparison.belowMarket 0) := by
  have hB : absentOrNonpos (Option.some b) = false := by simp [absentOrNonpos, not_le.2 hb]
  have hM : absentOrNonpos (Option.some m) = false := by simp [absentOrNonpos, not_le.2 hm]
  have hgc : get_rate_comparison (Option.some b) (Option.some m) =
      { broker_rate_per_mile := RVal.num b,
        market_rate_per_mile := RVal.num m,
        difference_percentage := RVal.num (round2 d),
        comparison :=
          if 0 < d then Comparison.aboveMarket |round2 d|
          else if d < 0 then Comparison.belowMarket |round2 d|
          else Comparison.atMarket } := by
    unfold get_rate_comparison
    rw [hB, hM]
    simp [← hd]
  rw [hgc]
  refine ⟨rfl, fun h => ?_, fun h => ?_, fun h => ?_, fun h h0 => ?_⟩
  · simp [h]
  · simp [h, not_lt.2 h.le]
  · simp [h]
  · rcases lt_or_gt_of_ne h with hlt | hgt
    · right
      simp [hlt, not_lt.2 hlt.le, h0]
    · left
      simp [hgt, h0]

/-- C2 witness: broker 1000.01 vs market 1000 has unrounded difference 0.001,
which rounds to 0.00 yet is classified above market. -/
theorem C2_comparisonSign_witness :
    (get_rate_comparison (Option.some (100001/100)) (Option.some 1000)).difference_percentage
        = RVal.num 0 ∧
    (get_rate_comparison (Option.some (100001/100)) (Option.some 1000)).comparison
        = Comparison.aboveMarket 0 := by
  have h := C2_comparisonSign (100001/100) 1000 (1/1000) (by norm_num) (by norm_num)
    (by norm_num)
  have hr : round2 (1/1000) = 0 := by norm_num [round2, roundHalfEven, Rat.floor]
  have habove := h.2.1 (by norm_num)
  rw [hr] at habove
  simp only [abs_zero] at habove
  exact ⟨h.1.trans (congrArg RVal.num hr), habove⟩

/-- C5: when broker rate or market rate is absent or non-positive, the
comparison reports the `Not Available` sentinel for each missing or
non-positive side individually (a present positive side keeps its number),
`N/A` for the difference, and classification `Rate comparison not possible`. -/
theorem C5_compareMissing (b m : Option ℚ)
    (h : absentOrNonpos b = true ∨ absentOrNonpos m = true) :
    (get_rate_comparison b m).comparison = Comparison.notPossible ∧
    (get_rate_comparison b m).difference_percentage = RVal.str "N/A" ∧
    (absentOrNonpos b = true →
       (get_rate_comparison b m).broker_rate_per_mile = RVal.str "Not Available") ∧
    (∀ q, b = Option.some q → 0 < q →
       (get_rate_comparison b m).broker_rate_per_mile = RVal.num q) ∧
    (absentOrNonpos m = true →
       (get_rate_comparison b m).market_rate_per_mile = RVal.str "Not Available") ∧
    (∀ q, m = Option.some q → 0 < q →
       (get_rate_comparison b m).market_rate_per_mile = RVal.num q) := by
  unfold get_rate_comparison
  have hcond : (absentOrNonpos b = true ∨ absentOrNonpos m = true) := h
  rw [if_pos hcond]
  refine ⟨rfl, rfl, fun hb => by simp [hb], fun q hq hpos => ?_,
    fun hm => by simp [hm], fun q hq hpos => ?_⟩
  · subst hq
    have : absentOrNonpos (Option.some q) = false := by simp [absentOrNonpos, not_le.2 hpos]
    simp [this]
  · subst hq
    have : absentOrNonpos (Option.some q) = false := by simp [absentOrNonpos, not_le.2 hpos]
    simp [this]

/-- C5 witness: an absent broker rate against market 2 gives the sentinel
broker field and `Rate comparison not possible`. -/
theorem C5_compareMissing_witness :
    (get_rate_comparison Option.none (Option.some 2)).comparison = Comparison.notPossible ∧
    (get_rate_comparison Option.none (Option.some 2)).broker_rate_per_mile
        = RVal.str "Not Available" ∧
    (get_rate_comparison Option.none (Option.some 2)).market_rate_per_mile = RVal.num 2 := by
  have h := C5_compareMissing Option.none (Option.some 2) (Or.inl rfl)
  exact ⟨h.1, h.2.2.1 rfl, h.2.2.2.2.2 2 rfl (by norm_num)⟩

theorem process_matches_filter (tr : Transport) (tok : String) (ms : List MatchRec) :
    process_matches tr tok ms
      = (ms.filter (fun m => !skipMatch m)).map (processOne tr tok) := by
  induction ms with
  | nil => rfl
  | cons m rest ih =>
      simp only [process_matches, List.filter_cons]
      by_cases h : skipMatch m
      · simp [h, ih]
      · simp [h, ih]

/-- C9: `call_rateview_api` treats exactly status 200 and 201 as success and
returns the parsed body; any other status yields the `API Error:` dict with
the body as detail; a raised transport exception (including a body that fails
to parse) yields the `Exception:` dict.  The embedding returns a plain dict,
so no failure escapes the boundary. -/
theorem C9_lookupMarketRate (tr : Transport) (origin destination : PDict)
    (equipment access_token : String) :
    (∀ msg, tr (mkPayload origin destination equipment) access_token = TransportOutcome.exn msg →
       call_rateview_api tr origin destination equipment access_token
         = { error := Option.some ("Exception: " ++ msg) }) ∧
    (∀ r, tr (mkPayload origin destination equipment) access_token = TransportOutcome.resp r →
       r.status_code ≠ 200 → r.status_code ≠ 201 →
       call_rateview_api tr origin destination equipment access_token
         = { error := Option.some ("API Error: " ++ toString r.status_code),
             detail := Option.some r.text }) ∧
    (∀ r body, tr (mkPayload origin destination equipment) access_token = TransportOutcome.resp r →
       (r.status_code = 200 ∨ r.status_code = 201) → r.jsonBody = Except.ok body →
       call_rateview_api tr origin destination equipment access_token = body) ∧
    (∀ r msg, tr (mkPayload origin destination equipment) access_token = TransportOutcome.resp r →
       (r.status_code = 200 ∨ r.status_code = 201) → r.jsonBody = Except.error msg →
       call_rateview_api tr origin destination equipment access_token
         = { error := Option.some ("Exception: " ++ msg) }) := by
  refine ⟨fun msg h => ?_, fun r h h2 h3 => ?_, fun r body h h2 h3 => ?_,
    fun r msg h h2 h3 => ?_⟩
  · unfold call_rateview_api
    rw [h]
  · unfold call_rateview_api
    rw [h]
    simp only [if_neg (not_or.mpr ⟨h2, h3⟩)]
  · unfold call_rateview_api
    rw [h]
    simp only [if_pos h2, h3]
  · unfold call_rateview_api
    rw [h]
    simp only [if_pos h2, h3]

/-- C9 witness: an HTTP 500 response yields the structured API error dict. -/
theorem C9_lookupMarketRate_witness :
    call_rateview_api trStatus500 [] [] "VAN" "tok"
      = { error := Option.some ("API Error: " ++ toString 500),
          detail := Option.some "server error" } :=
  (C9_lookupMarketRate trStatus500 [] [] "VAN" "tok").2.1
    { status_code := 500, text := "server error", jsonBody := Except.error "invalid json" }
    rfl (by decide) (by decide)

/-- C8: the `processedMatches` output lists exactly the non-skipped input
matches, in the input order, each mapped independently through the per-match
processing function. -/
theorem C8_orderPreserved (tr : Transport) (tok : String) (loads : LoadsData) :
    (process_loads_and_compare_rates tr loads tok).processedMatches
      = ((loads.matchesList.getD []).filter (fun m => !skipMatch m)).map (processOne tr tok) :=
  process_matches_filter tr tok _

/-- C7: a match failing the origin/destination-place test is silently
dropped: the batch output equals the output for the input without that match,
the other matches still being processed, and the `matchCounts` pass-through is
the input value, unaffected by the drop. -/
theorem C7_silentDrop (tr : Transport) (tok : String) (mc : MatchCounts)
    (pre post : List MatchRec) (m : MatchRec) (h : skipMatch m = true) :
    process_loads_and_compare_rates tr
        { matchCounts := Option.some mc, matchesList := Option.some (pre ++ m :: post) } tok
      = process_loads_and_compare_rates tr
        { matchCounts := Option.some mc, matchesList := Option.some (pre ++ post) } tok ∧
    (process_loads_and_compare_rates tr
        { matchCounts := Option.some mc, matchesList := Option.some (pre ++ m :: post) } tok).matchCounts
      = mc := by
  constructor
  · unfold process_loads_and_compare_rates
    simp only [Option.getD_some, BatchResult.mk.injEq, true_and]
    rw [process_matches_filter, process_matches_filter]
    simp [List.filter_append, List.filter_cons, h]
  · rfl

/-- C7 witness: dropping a match with no `matchingAssetInfo` leaves the empty
batch and the `matchCounts` pass-through. -/
theorem C7_silentDrop_witness :
    process_loads_and_compare_rates trOk200
        { matchCounts := Option.some [("total", 5)],
          matchesList := Option.some ([] ++ ({} : MatchRec) :: []) } "tok"
      = process_loads_and_compare_rates trOk200
        { matchCounts := Option.some [("total", 5)],
          matchesList := Option.some ([] ++ []) } "tok" :=
  (C7_silentDrop trOk200 "tok" [("total", 5)] [] [] {} (by decide)).1

/-- C10: a match whose origin, or whose destination place, is present but an
empty mapping is silently dropped exactly like one with the key absent: the
dict-emptiness test decides the skip. -/
theorem C10_emptyPlaceDrop (tr : Transport) (tok : String) (mc : Option MatchCounts)
    (m : MatchRec) (ai : AssetInfo) (hai : m.matchingAssetInfo = Option.some ai)
    (h : ai.origin = Option.some [] ∨ (ai.destination.getD {}).place = Option.some []) :
    skipMatch m = true ∧
    process_loads_and_compare_rates tr
        { matchCounts := mc, matchesList := Option.some [m] } tok
      = { matchCounts := mc.getD [], processedMatches := [] } := by
  have hskip : skipMatch m = true := by
    unfold skipMatch MatchRec.originDict MatchRec.destPlaceDict
    rw [hai]
    rcases h with h | h
    · simp [h]
    · simp [h]
  refine ⟨hskip, ?_⟩
  unfold process_loads_and_compare_rates
  simp [process_matches, hskip]

/-- C10 witness: a match whose origin key holds an empty dict is dropped. -/
theorem C10_emptyPlaceDrop_witness :
    process_loads_and_compare_rates trOk200
        { matchCounts := Option.some [("total", 1)],
          matchesList := Option.some
            [{ matchingAssetInfo := Option.some
                 { origin := Option.some [],
                   destination := Option.some { place := Option.some [("city", "X")] } } }] } "tok"
      = { matchCounts := [("total", 1)], processedMatches := [] } :=
  (C10_emptyPlaceDrop trOk200 "tok" (Option.some [("total", 1)])
    { matchingAssetInfo := Option.some
        { origin := Option.some [],
          destination := Option.some { place := Option.some [("city", "X")] } } }
    { origin := Option.some [],
      destination := Option.some { place := Option.some [("city", "X")] } }
    rfl (Or.inl rfl)).2

/-- C1 (amended): for every job whose `input` key is present, the handler
returns a mapping and never propagates a failure, with the validation checks
in order: a non-dict input, a falsy `freight_data`, then a falsy
`access_token` yield their respective error mappings, and an exception raised
during processing yields the `Processing error:` mapping. -/
theorem C1_handlerBoundary (tr : Transport) (job : Job) (ji : JobInput)
    (h : job.inputVal = Option.some ji) :
    (∃ res, handler tr job = Except.ok res) ∧
    (ji = JobInput.jnondict →
       handler tr job = Except.ok (HandlerResult.errResult "Input must be a dictionary")) ∧
    (∀ d, ji = JobInput.jdict d → fvTruthy d.freight_data = false →
       handler tr job
         = Except.ok (HandlerResult.errResult "Missing required parameter: freight_data")) ∧
    (∀ d, ji = JobInput.jdict d → fvTruthy d.freight_data = true →
       (d.access_token.getD "").isEmpty = true →
       handler tr job
         = Except.ok (HandlerResult.errResult "Missing required parameter: access_token")) ∧
    (∀ d msg, ji = JobInput.jdict d → fvTruthy d.freight_data = true →
       (d.access_token.getD "").isEmpty = false →
       process_freight_or_raise tr d.freight_data (d.access_token.getD "") = Except.error msg →
       handler tr job
         = Except.ok (HandlerResult.errResult ("Processing error: " ++ msg))) := by
  unfold handler
  rw [h]
  refine ⟨?_, fun hji => ?_, fun d hji hft => ?_, fun d hji hft htok => ?_,
    fun d msg hji hft htok hproc => ?_⟩
  · cases ji with
    | jnondict => exact ⟨_, rfl⟩
    | jdict d =>
        simp only []
        split_ifs
        · exact ⟨_, rfl⟩
        · exact ⟨_, rfl⟩
        · cases hE : process_freight_or_raise tr d.freight_data (d.access_token.getD "") with
          | ok r => exact ⟨_, rfl⟩
          | error e => exact ⟨_, rfl⟩
  · subst hji
    rfl
  · subst hji
    simp [hft]
  · subst hji
    simp [hft, htok]
  · subst hji
    simp [hft, htok, hproc]

/-- C1 witness: a job whose `input` is present but not a dict yields the
input-validation error mapping. -/
theorem C1_handlerBoundary_witness :
    handler trOk200 { inputVal := Option.some JobInput.jnondict }
      = Except.ok (HandlerResult.errResult "Input must be a dictionary") :=
  (C1_handlerBoundary trOk200 { inputVal := Option.some JobInput.jnondict }
    JobInput.jnondict rfl).2.1 rfl

/-- C1 counterexample: a job without the `input` key makes the handler raise
(`job["input"]` is evaluated outside the `try` block), so it does not return
an error mapping for every job value: the claim fails at this input. -/
theorem C1_noInputKey_counterexample :
    handler trOk200 { inputVal := Option.none } = Except.error keyErrorInput := rfl

end DatMarket
